import Mathlib

/-!
Verification of `download_transcripts.py` (YouTube transcript downloader).

The Python source is shallowly embedded below:

* `extract_video_id` models `TranscriptDownloader.extract_video_id`
  (regex matching is modelled by explicit character-list scanners that
  follow `re.match` / `re.search` leftmost-match semantics);
* `_clean_filename` models `TranscriptDownloader._clean_filename`
  (Python `str.replace` / `str.strip` / `re.sub` / slicing are modelled
  on `List Char`);
* `format_transcript_text`, `save_transcript` model the renderer
  (JSON dictionaries are modelled by structures whose `Option` fields
  distinguish an absent key from an explicit `null` where the code
  distinguishes them);
* `fetch_transcript` models the retry loop, driven by an oracle
  `Nat → Resp` giving the response of each network attempt; sleeping is
  abstracted away and console output is modelled by the message strings
  the code would print.
-/

/-- Character class `[A-Za-z0-9_-]` of the video-id regexes.  `Char.isAlphanum`
is ASCII-only, matching Python's `[a-zA-Z0-9]`. -/
def isIdChar (c : Char) : Bool :=
  c.isAlphanum || c = '_' || c = '-'

/-- Model of `re.match(r'^[a-zA-Z0-9_-]{11}$', url)`: true on exactly 11
id-characters, and also on 11 id-characters followed by a single trailing
newline (Python `$` matches before a final `'\n'`). -/
def matches_id_fullmatch (u : String) : Bool :=
  (u.data.length = 11 && u.data.all isIdChar)
    || (u.data.length = 12 && (u.data.take 11).all isIdChar
          && u.data.getLast? = some '\n')

/-- The `([0-9A-Za-z_-]{11})` capture: the next 11 characters when they all
lie in the id alphabet, else no match. -/
def takeClass11 (l : List Char) : Option (List Char) :=
  let t := l.take 11
  if t.length = 11 && t.all isIdChar then some t else none

/-- One attempt of pattern `(?:v=|\/)([0-9A-Za-z_-]{11})` at the head of the
list: alternation tries `v=` first, then `/`, then the capture. -/
def tryPat1 : List Char → Option (List Char)
  | 'v' :: '=' :: rest => takeClass11 rest
  | '/' :: rest => takeClass11 rest
  | _ => none

/-- `re.search` of pattern 1: try every position left to right. -/
def scanPat1 : List Char → Option (List Char)
  | [] => none
  | c :: rest =>
    match tryPat1 (c :: rest) with
    | some cap => some cap
    | none => scanPat1 rest

/-- One attempt of pattern `youtu\.be\/([0-9A-Za-z_-]{11})` at the head. -/
def tryPat2 : List Char → Option (List Char)
  | 'y' :: 'o' :: 'u' :: 't' :: 'u' :: '.' :: 'b' :: 'e' :: '/' :: rest =>
    takeClass11 rest
  | _ => none

/-- `re.search` of pattern 2: try every position left to right. -/
def scanPat2 : List Char → Option (List Char)
  | [] => none
  | c :: rest =>
    match tryPat2 (c :: rest) with
    | some cap => some cap
    | none => scanPat2 rest

/-- Model of `TranscriptDownloader.extract_video_id`: the full-match check,
then pattern 1, then pattern 2, else `None`. -/
def extract_video_id (url : String) : Option String :=
  if matches_id_fullmatch url then some url
  else
    match scanPat1 url.data with
    | some cap => some (String.mk cap)
    | none =>
      match scanPat2 url.data with
      | some cap => some (String.mk cap)
      | none => none

/-- Whitespace stripped by Python `str.strip()` (ASCII part; Python also
strips other Unicode whitespace, which no claim exercises). -/
def isPySpace (c : Char) : Bool :=
  c = ' ' || c = '\t' || c = '\n' || c = '\r' || c = '\x0b' || c = '\x0c'

/-- `str.strip()` on a character list. -/
def stripChars (l : List Char) : List Char :=
  ((l.dropWhile isPySpace).reverse.dropWhile isPySpace).reverse

/-- Does `l` start with the pattern `p`? -/
def startsWith : List Char → List Char → Bool
  | [], _ => true
  | _ :: _, [] => false
  | p :: ps, c :: cs => p = c && startsWith ps cs

/-- Python `str.replace(pat, "")` for a non-empty `pat`: a single
left-to-right scan removing each non-overlapping occurrence.  Fuel-based
recursion; `replaceAll` supplies fuel `l.length`, enough since every step
consumes at least one character of a non-empty pattern. -/
def replaceAllAux (pat : List Char) : Nat → List Char → List Char
  | 0, l => l
  | _ + 1, [] => []
  | fuel + 1, c :: rest =>
    if startsWith pat (c :: rest) then
      replaceAllAux pat fuel ((c :: rest).drop pat.length)
    else
      c :: replaceAllAux pat fuel rest

/-- Python `l.replace(pat, "")` (deletion of all occurrences). -/
def replaceAll (pat l : List Char) : List Char :=
  replaceAllAux pat l.length l

/-- The reserved character class of `re.sub(r'[\\/*?:"<>|]', "", title)`. -/
def isReserved (c : Char) : Bool :=
  c = '\\' || c = '/' || c = '*' || c = '?' || c = ':' || c = '"'
    || c = '<' || c = '>' || c = '|'

/-- Model of `TranscriptDownloader._clean_filename`:
`title.replace(" - YouTube", "").strip()`, then removal of reserved
characters, then truncation to 200 characters (`title[:200]`, a character
slice), then a final `strip()`. -/
def _clean_filename (title : String) : String :=
  let t1 := stripChars (replaceAll " - YouTube".data title.data)
  let t2 := t1.filter (fun c => !(isReserved c))
  let t3 := t2.take 200
  String.mk (stripChars t3)

example : _clean_filename "My Video - YouTube" = "My Video" := by decide
example : _clean_filename "A - YouTube B" = "A B" := by decide
example : _clean_filename "a/b:c" = "abc" := by decide

/-- Two-digit zero-padding for the fractional part of `f"{x:.2f}"`. -/
def pad2 (n : Nat) : String :=
  if n < 10 then "0" ++ toString n else toString n

/-- Model of Python `f"{x:.2f}"` on the segment start offset.  Python
formats an IEEE double by correctly rounding it to two decimals
(half-to-even); on the dyadic rationals the claims exercise the two agree,
and we model the offset as an exact rational.  Implemented on the
numerator/denominator to stay kernel-computable: the magnitude in
hundredths is `|num| * 100 / den`, rounded half-to-even on the remainder. -/
def format2 (x : Rat) : String :=
  let nn : Nat := x.num.natAbs * 100
  let d : Nat := x.den
  let f := nn / d
  let rem := nn % d
  let r : Nat :=
    if 2 * rem < d then f
    else if d < 2 * rem then f + 1
    else if f % 2 = 0 then f else f + 1
  let base := toString (r / 100) ++ "." ++ pad2 (r % 100)
  if x.num < 0 then "-" ++ base else base

example : format2 (mkRat 1 2) = "0.50" := by decide
example : format2 0 = "0.00" := by decide
example : format2 (mkRat 1234 100) = "12.34" := by decide
example : format2 (mkRat (-1) 8) = "-0.12" := by decide

/-- One element of the `transcript` JSON array.  A `dict` segment carries
the `text` field (`none` = key absent, defaulted to `""` by
`segment.get("text", "")`) and the `start` field (`none` = key absent,
defaulted to `0`; `some none` = explicit `null`, i.e. Python `None`;
`some (some r)` = a number).  A non-dict element is kept as its Python
`str(segment)` rendering. -/
inductive SegVal where
  | dict (text : Option String) (start : Option (Option Rat))
  | other (rendered : String)
deriving DecidableEq

/-- The `transcript` field of the response: a JSON array of segments or a
plain string. -/
inductive TranscriptField where
  | segs (l : List SegVal)
  | txt (s : String)
deriving DecidableEq

/-- The `metadata` JSON object (`title`, `author_name`, `author_url`;
`none` = key absent). -/
structure MetaData where
  title : Option String
  author_name : Option String
  author_url : Option String
deriving DecidableEq

/-- The parsed 200-response body.  `transcript = none` covers an absent or
`null` field (both falsy, like the `[]` default of
`transcript_data.get("transcript", [])`); `metadata = none` covers an
absent or empty `metadata` object (both falsy).  `truthy` records the
Python truthiness of the parsed dictionary itself (non-empty), which
`main` tests with `if transcript_data:` — it is not derivable from the
three modelled fields, since each conflates an absent key with a present
falsy value; a body with any key present is truthy (in particular every
body with a modelled field `some _` arises only with `truthy = true`),
and the empty JSON object is `⟨none, none, none, false⟩`. -/
structure TranscriptData where
  transcript : Option TranscriptField
  language : Option String
  metadata : Option MetaData
  truthy : Bool
deriving DecidableEq

/-- Rendering of one segment inside `format_transcript_text`:
`text = segment.get("text", "")`, `start = segment.get("start", 0)`, then
the bracketed prefix exactly when `start is not None`. -/
def renderSegment : SegVal → String
  | .dict t s0 =>
    let text := t.getD ""
    let start : Option Rat :=
      match s0 with
      | none => some 0
      | some none => none
      | some (some r) => some r
    match start with
    | some r => "[" ++ format2 r ++ "s] " ++ text
    | none => text
  | .other s => s

/-- Model of `TranscriptDownloader.format_transcript_text`: empty (or
falsy) transcript gives `""`; a list of segments is rendered one per line
and joined with `"\n"`; a string transcript is returned as is. -/
def format_transcript_text (d : TranscriptData) : String :=
  match d.transcript with
  | none => ""
  | some (.segs []) => ""
  | some (.segs l) => String.intercalate "\n" (l.map renderSegment)
  | some (.txt "") => ""
  | some (.txt s) => s

example :
    format_transcript_text
      ⟨some (.segs [.dict (some "Hello") (some (some (mkRat 1 2))),
                    .dict (some "World") (some none)]), none, none, true⟩
      = "[0.50s] Hello\nWorld" := by decide

/-- A document written by `save_transcript`: output path and content. -/
structure RenderedDoc where
  path : String
  content : String
deriving DecidableEq

/-- Model of `TranscriptDownloader.save_transcript`.  The filesystem write
is abstracted by `writeOk`: the code returns the filepath when the write
succeeds and `None` when it raises.  `os.path.join` is modelled as
`output_dir ++ "/" ++ filename`. -/
def save_transcript (video_url : String) (d : TranscriptData)
    (output_dir : String) (writeOk : Bool) : Option RenderedDoc :=
  let video_id := (extract_video_id video_url).getD "unknown"
  let title :=
    match d.metadata with
    | some m => m.title.getD ("Transcript " ++ video_id)
    | none => "Transcript " ++ video_id
  let filename0 := _clean_filename title
  let filename :=
    if filename0 = "" || filename0 = "unknown" then "transcript_" ++ video_id
    else filename0
  let language := d.language.getD "unknown"
  let transcript_text := format_transcript_text d
  let content :=
    "# " ++ title ++ "\n\n**Link Original:** " ++ video_url
      ++ "\n**Video ID:** " ++ video_id
      ++ "\n**Idioma detectado:** " ++ language
      ++ "\n\n---\n\n## Transcrição\n\n" ++ transcript_text ++ "\n"
  let content :=
    match d.metadata with
    | some m =>
      match m.author_name with
      | some an =>
        content ++ "\n\n**Canal:** " ++ an
          ++ (match m.author_url with
              | some au => " (" ++ au ++ ")"
              | none => "")
      | none => content
    | none => content
  if writeOk then some ⟨output_dir ++ "/" ++ filename ++ ".md", content⟩
  else none

/-- Model of Python `int(s)` on a string: optional surrounding ASCII
whitespace, an optional sign, then decimal digits with single underscores
allowed between digits; `none` when the conversion raises `ValueError`.
(Python also accepts non-ASCII decimal digits, which no claim exercises.) -/
def pyIntDigits : Nat → List Char → Option Nat
  | acc, [] => some acc
  | _, '_' :: [] => none
  | acc, '_' :: c :: rest =>
    if c.isDigit then pyIntDigits (acc * 10 + (c.toNat - 48)) rest else none
  | acc, c :: rest =>
    if c.isDigit then pyIntDigits (acc * 10 + (c.toNat - 48)) rest else none

/-- Parse an unsigned digit group (must start with a digit). -/
def pyIntCore (l : List Char) : Option Nat :=
  match l with
  | c :: rest =>
    if c.isDigit then pyIntDigits (c.toNat - 48) rest else none
  | [] => none

/-- Python `int(s)` for a string argument. -/
def pyInt (s : String) : Option Int :=
  match stripChars s.data with
  | '+' :: rest => (pyIntCore rest).map (fun n => (n : Int))
  | '-' :: rest => (pyIntCore rest).map (fun n => -(n : Int))
  | rest => (pyIntCore rest).map (fun n => (n : Int))

example : pyInt " 12 " = some 12 := by decide
example : pyInt "-5" = some (-5) := by decide
example : pyInt "1_2" = some 12 := by decide
example : pyInt "abc" = none := by decide
example : pyInt "" = none := by decide
example : pyInt "1__2" = none := by decide

/-- An error-response body as `_handle_error` inspects it.
`json = none`: `response.json()` raises (or yields no object with a `get`
method), so the bare `except` falls back to `response.text`.
`json = some dtl`: the body parses as a JSON object whose `detail` field is
`dtl` (`none` = field absent, defaulted to `"Unknown error"`). -/
structure ErrBody where
  json : Option (Option String)
  text : String
deriving DecidableEq

/-- The `error_msg` local of `_handle_error`:
`error_data.get("detail", "Unknown error")` when the body parses, else
`response.text or "Unknown error"`. -/
def handle_error_msg (body : ErrBody) : String :=
  match body.json with
  | some dtl => dtl.getD "Unknown error"
  | none => if body.text = "" then "Unknown error" else body.text

/-- Model of `TranscriptDownloader._handle_error`: the printed message,
chosen from the `error_messages` dictionary by status code, with
`f"Error {status_code}: {error_msg}"` as the `.get` default. -/
def _handle_error (status : Nat) (body : ErrBody) (video_url : String) :
    String :=
  let error_msg := handle_error_msg body
  if status = 400 then "Bad Request: " ++ error_msg
  else if status = 401 then
    "Unauthorized: Invalid or missing API key. Check your TRANSCRIPT_API_KEY."
  else if status = 402 then "Payment Required: " ++ error_msg
  else if status = 404 then
    "Not Found: Video not found or transcript unavailable for " ++ video_url
  else if status = 422 then
    "Validation Error: Invalid YouTube URL or ID - " ++ video_url
  else if status = 429 then "Too Many Requests: Rate limit exceeded"
  else if status = 500 then "Server Error: " ++ error_msg
  else "Error " ++ toString status ++ ": " ++ error_msg

/-- One network attempt's result, as `fetch_transcript` classifies it:
a 200 response with parsed body `data`; a 429 response carrying an
optional `Retry-After` header value; any other status with its error
body; or a `requests.exceptions.RequestException` raised by the call. -/
inductive Resp where
  | ok (data : TranscriptData)
  | rateLimited (retryAfter : Option String)
  | err (status : Nat) (body : ErrBody)
  | exc (msg : String)

/-- The outcome of `fetch_transcript`: the parsed dictionary on success,
`None` on failure (with the error message the code prints, when it prints
one), or an uncaught exception escaping the function. -/
inductive FetchResult where
  | success (d : TranscriptData)
  | failure (printed : Option String)
  | raised (e : String)
deriving DecidableEq

/-- The body of `for attempt in range(max_retries)`, with `remaining`
iterations left (`attempt + remaining = max_retries` at every call from
`fetch_transcript`).  Returns the outcome and the number of network calls
(`session.get`) performed.  A 429 consumes an iteration: the header value
(default `2 ** attempt`) goes through `int()`, whose `ValueError` is not
caught by the `except requests.exceptions.RequestException` clause;
`time.sleep` is abstracted away. -/
def fetchGo (responses : Nat → Resp) (video_url : String)
    (maxRetries : Nat) : Nat → Nat → FetchResult × Nat
  | _, 0 => (.failure none, 0)
  | attempt, remaining + 1 =>
    match responses attempt with
    | .rateLimited ra =>
      let retry_after : Option Int :=
        match ra with
        | none => some ((2 : Int) ^ attempt)
        | some s => pyInt s
      (match retry_after with
       | some _ =>
         let next := fetchGo responses video_url maxRetries (attempt + 1)
           remaining
         (next.1, next.2 + 1)
       | none => (.raised "ValueError", 1))
    | .ok d => (.success d, 1)
    | .err st body => (.failure (some (_handle_error st body video_url)), 1)
    | .exc m =>
      if attempt < maxRetries - 1 then
        let next := fetchGo responses video_url maxRetries (attempt + 1)
          remaining
        (next.1, next.2 + 1)
      else
        (.failure (some ("Request failed after " ++ toString maxRetries
          ++ " attempts: " ++ m)), 1)

/-- Model of `TranscriptDownloader.fetch_transcript`, driven by the oracle
`responses` giving each attempt's response.  The `format`,
`include_timestamp` and `send_metadata` arguments only shape the query
string and are not observable here. -/
def fetch_transcript (responses : Nat → Resp) (video_url : String)
    (max_retries : Nat) : FetchResult × Nat :=
  fetchGo responses video_url max_retries 0 max_retries

/-- One reference's processing inside `main`'s loop: network calls
performed and the file written, if any. -/
structure ProcessResult where
  networkCalls : Nat
  saved : Option RenderedDoc
deriving DecidableEq

/-- Model of the per-reference body of `main`: `fetch_transcript` is
called unconditionally (with the raw reference and the default
`max_retries = 3`); `save_transcript` runs only behind
`if transcript_data:`, i.e. when the fetch succeeded AND the parsed
dictionary is truthy (non-empty) — a 200 whose body is the empty JSON
object is tallied as a failure and writes nothing. -/
def processReference (responses : Nat → Resp) (writeOk : Bool)
    (output_dir url : String) : ProcessResult :=
  let fr := fetch_transcript responses url 3
  match fr.1 with
  | .success d =>
    if d.truthy then ⟨fr.2, save_transcript url d output_dir writeOk⟩
    else ⟨fr.2, none⟩
  | _ => ⟨fr.2, none⟩

example :
    (fetch_transcript (fun _ => .rateLimited none) "u" 3).1
      = .failure none := by decide
example :
    (fetch_transcript (fun _ => .rateLimited none) "u" 3).2 = 3 := by decide
example :
    fetch_transcript (fun _ => .ok ⟨none, none, none, false⟩) "u" 3
      = (.success ⟨none, none, none, false⟩, 1) := by decide
example :
    (processReference (fun _ => .ok ⟨none, none, none, true⟩) true "out"
        "notanid!!").saved
      = some ⟨"out/Transcript unknown.md",
          "# Transcript unknown\n\n**Link Original:** notanid!!\n**Video ID:** unknown\n**Idioma detectado:** unknown\n\n---\n\n## Transcrição\n\n\n"⟩ := by
  decide
example :
    (processReference (fun _ => .ok ⟨none, none, none, false⟩) true "out"
        "notanid!!").saved = none := by decide

example : extract_video_id "dQw4w9WgXcQ" = some "dQw4w9WgXcQ" := by decide
example : extract_video_id "https://www.youtube.com/watch?v=dQw4w9WgXcQ"
    = some "dQw4w9WgXcQ" := by decide
example : extract_video_id "https://youtu.be/dQw4w9WgXcQ"
    = some "dQw4w9WgXcQ" := by decide
example : extract_video_id "notanid!!" = none := by decide
example : extract_video_id "https://example.com/abcdefghijk"
    = some "abcdefghijk" := by decide

/-- The watch-URL wrapper of the spec's roundtrip property (query
parameter `v=`). -/
def wrapWatchURL (id : String) : String :=
  "https://www.youtube.com/watch?v=" ++ id

/-- The path-segment wrapper of the spec's roundtrip property. -/
def wrapPathURL (id : String) : String :=
  "https://www.youtube.com/embed/" ++ id

/-- The short-link wrapper of the spec's roundtrip property. -/
def wrapShortURL (id : String) : String :=
  "https://youtu.be/" ++ id

theorem stripChars_sublist (l : List Char) :
    List.Sublist (stripChars l) l := by
  have h1 : List.Sublist (l.dropWhile isPySpace) l := List.dropWhile_sublist _
  have h2 :
      List.Sublist ((l.dropWhile isPySpace).reverse.dropWhile isPySpace)
        (l.dropWhile isPySpace).reverse := List.dropWhile_sublist _
  have h3 := h2.reverse
  rw [List.reverse_reverse] at h3
  exact h3.trans h1

theorem list_eq_of_length_eleven {α : Type} (l : List α)
    (h : l.length = 11) :
    ∃ c0 c1 c2 c3 c4 c5 c6 c7 c8 c9 c10,
      l = [c0, c1, c2, c3, c4, c5, c6, c7, c8, c9, c10] := by
  rcases l with _ | ⟨c0, _ | ⟨c1, _ | ⟨c2, _ | ⟨c3, _ | ⟨c4, _ | ⟨c5,
    _ | ⟨c6, _ | ⟨c7, _ | ⟨c8, _ | ⟨c9, _ | ⟨c10, _ | ⟨c11, t⟩⟩⟩⟩⟩⟩⟩⟩⟩⟩⟩⟩ <;>
    first
      | exact ⟨c0, c1, c2, c3, c4, c5, c6, c7, c8, c9, c10, rfl⟩
      | (simp at h)

theorem fetchGo_calls_le (responses : Nat → Resp) (url : String) (m : Nat) :
    ∀ r a, (fetchGo responses url m a r).2 ≤ r := by
  intro r
  induction r with
  | zero => intro a; simp [fetchGo]
  | succ n ih =>
    intro a
    cases hr : responses a with
    | ok d => simp [fetchGo, hr]
    | rateLimited ra =>
      cases ra with
      | none =>
        have := ih (a + 1)
        simp [fetchGo, hr]
        omega
      | some s =>
        cases hp : pyInt s with
        | none => simp [fetchGo, hr, hp]
        | some k =>
          have := ih (a + 1)
          simp [fetchGo, hr, hp]
          omega
    | err st body => simp [fetchGo, hr]
    | exc msg =>
      by_cases hlt : a < m - 1
      · have := ih (a + 1)
        simp [fetchGo, hr, hlt]
        omega
      · simp [fetchGo, hr, hlt]

theorem fetchGo_all429 (url : String) (m : Nat) :
    ∀ r a, fetchGo (fun _ => Resp.rateLimited none) url m a r
      = (.failure none, r) := by
  intro r
  induction r with
  | zero => intro a; simp [fetchGo]
  | succ n ih => intro a; simp [fetchGo, ih (a + 1)]

theorem processReference_calls (responses : Nat → Resp) (writeOk : Bool)
    (dir url : String) :
    (processReference responses writeOk dir url).networkCalls
      = (fetch_transcript responses url 3).2 := by
  simp only [processReference]
  cases h : (fetch_transcript responses url 3).1 <;>
    simp [h, apply_ite ProcessResult.networkCalls]

/-- C2: for every sequence of responses `fetch_transcript` performs at most
`max_retries` network attempts and terminates; an unbroken string of 429
rate-limit responses exhausts the attempt budget and yields a failure
outcome (`None`), not an infinite loop; and a 200 response on the first
attempt performs exactly one network call. -/
theorem fetch_transcript_attempt_bound (responses rest : Nat → Resp)
    (url : String) (m : Nat) (d : TranscriptData) :
    (fetch_transcript responses url m).2 ≤ m
    ∧ fetch_transcript (fun _ => .rateLimited none) url m
        = (.failure none, m)
    ∧ fetch_transcript (fun i => if i = 0 then .ok d else rest i) url (m + 1)
        = (.success d, 1) :=
  ⟨fetchGo_calls_le responses url m m 0,
   fetchGo_all429 url m m 0,
   by simp [fetch_transcript, fetchGo]⟩

/-- C3 counterexample: a segment whose `start` key is absent carries no
start offset, yet `format_transcript_text` does not render it as bare
text: the `segment.get("start", 0)` default produces the prefix
`[0.00s]`. -/
theorem render_missing_start_counterexample :
    renderSegment (.dict (some "Hello") none) = "[0.00s] Hello"
    ∧ renderSegment (.dict (some "Hello") none) ≠ "Hello" := by
  constructor
  · decide
  · decide

/-- C3 (amended): a segment whose `start` field is present and non-null
renders as the two-decimal bracketed offset followed by the text; a
segment whose `start` is explicitly null renders as the bare text; a
segment whose `start` key is absent is defaulted to 0 and renders with the
prefix `[0.00s]`; in particular `start = 0.5` formats as `0.50`, and the
two-segment example transcript renders as the two lines
`[0.50s] Hello` and `World`. -/
theorem format_transcript_rendering (t : String) (r : Rat) :
    renderSegment (.dict (some t) (some (some r)))
      = "[" ++ format2 r ++ "s] " ++ t
    ∧ renderSegment (.dict (some t) (some none)) = t
    ∧ renderSegment (.dict (some t) none) = "[" ++ format2 0 ++ "s] " ++ t
    ∧ format2 0 = "0.00"
    ∧ format2 (mkRat 1 2) = "0.50"
    ∧ format_transcript_text
        ⟨some (.segs [.dict (some "Hello") (some (some (mkRat 1 2))),
                      .dict (some "World") (some none)]), none, none, true⟩
        = "[0.50s] Hello\nWorld" :=
  ⟨rfl, rfl, rfl, by decide, by decide, by decide⟩

/-- C4 counterexample: `_clean_filename` does not leave a non-trailing
occurrence of " - YouTube" intact: on "A - YouTube B" the occurrence is in
the middle of the string, yet it is removed. -/
theorem clean_filename_middle_suffix_counterexample :
    _clean_filename "A - YouTube B" = "A B"
    ∧ _clean_filename "A - YouTube B" ≠ "A - YouTube B" := by
  constructor
  · decide
  · decide

/-- C4 (amended): the sanitizer removes every non-overlapping occurrence
of " - YouTube" found in one left-to-right scan (Python `str.replace`),
wherever it occurs — a trailing occurrence, a middle occurrence, and
repeated occurrences are all removed, not just one trailing match. -/
theorem clean_filename_removes_all_suffixes :
    _clean_filename "My Video - YouTube" = "My Video"
    ∧ _clean_filename "A - YouTube B" = "A B"
    ∧ _clean_filename "A - YouTubeB - YouTube" = "AB" := by
  refine ⟨by decide, by decide, by decide⟩

/-- C7: every string of exactly 11 characters drawn from the alphabet
`[A-Za-z0-9_-]` is returned unchanged by the extractor (the
`re.match(r'^[a-zA-Z0-9_-]{11}$', url)` fast path). -/
theorem extract_video_id_canonical_identity (s : String)
    (h1 : s.length = 11) (h2 : s.data.all isIdChar = true) :
    extract_video_id s = some s := by
  have hm : matches_id_fullmatch s = true := by
    unfold matches_id_fullmatch
    have h1' : s.data.length = 11 := h1
    simp [h1', h2]
  simp [extract_video_id, hm]

/-- C7 witness at the concrete canonical id "dQw4w9WgXcQ". -/
theorem extract_video_id_canonical_identity_witness :
    ("dQw4w9WgXcQ" : String).length = 11
    ∧ ("dQw4w9WgXcQ" : String).data.all isIdChar = true
    ∧ extract_video_id "dQw4w9WgXcQ" = some "dQw4w9WgXcQ" :=
  ⟨by decide, by decide,
   extract_video_id_canonical_identity "dQw4w9WgXcQ" (by decide) (by decide)⟩

/-- C8: for every title, the sanitizer's output has at most 200 characters
and contains no character of the reserved set. -/
theorem clean_filename_bounds (title : String) :
    (_clean_filename title).length ≤ 200
    ∧ ∀ c ∈ (_clean_filename title).data, isReserved c = false := by
  have key : ∀ l : List Char,
      (String.mk (stripChars
          ((l.filter (fun c => !(isReserved c))).take 200))).length ≤ 200
      ∧ ∀ c ∈ (String.mk (stripChars
            ((l.filter (fun c => !(isReserved c))).take 200))).data,
          isReserved c = false := by
    intro l
    constructor
    · have hlen1 :=
        (stripChars_sublist
          ((l.filter (fun c => !(isReserved c))).take 200)).length_le
      have hlen2 :
          ((l.filter (fun c => !(isReserved c))).take 200).length ≤ 200 := by
        simp
      exact le_trans hlen1 hlen2
    · intro c hc
      have hc2 := (stripChars_sublist _).subset hc
      have hc3 := (List.take_sublist _ _).subset hc2
      have hc4 := (List.mem_filter.mp hc3).2
      simpa using hc4
  exact key (stripChars (replaceAll " - YouTube".data title.data))

/-- C9: when the first response is a 429 whose `Retry-After` header value
is not an integer string, the `int()` conversion raises an uncaught
`ValueError` (the `except` clause catches only
`requests.exceptions.RequestException`), so `fetch_transcript` raises
after exactly one network call rather than returning an outcome. -/
theorem fetch_retry_after_non_integer_raises (rest : Nat → Resp)
    (s url : String) (m : Nat) (h : pyInt s = none) :
    fetch_transcript
        (fun i => if i = 0 then .rateLimited (some s) else rest i) url (m + 1)
      = (.raised "ValueError", 1) := by
  simp [fetch_transcript, fetchGo, h]

/-- C9 witness: Retry-After value "abc". -/
theorem fetch_retry_after_non_integer_raises_witness :
    pyInt "abc" = none
    ∧ fetch_transcript
        (fun i => if i = 0 then .rateLimited (some "abc") else .exc "boom")
        "u" 3
      = (.raised "ValueError", 1) :=
  ⟨by decide,
   fetch_retry_after_non_integer_raises (fun _ => .exc "boom") "abc" "u" 2
     (by decide)⟩

/-- C10: the extractor accepts strings that are not YouTube URLs: on
"https://example.com/abcdefghijk" the `(?:v=|\/)` pattern matches the path
slash and the extractor returns "abcdefghijk" instead of signalling
not-found. -/
theorem extract_video_id_non_youtube_url :
    extract_video_id "https://example.com/abcdefghijk" = some "abcdefghijk" := by
  decide

/-- C1 counterexample: for the reference "notanid!!" identifier extraction
fails, yet `main`'s per-reference processing still performs a network call
(a network call is made before any extraction), and on a successful 200
whose body carries a (truthy) transcript a file is still written. -/
theorem extract_failure_still_fetches_counterexample :
    extract_video_id "notanid!!" = none
    ∧ (processReference
        (fun _ => .ok ⟨some (.segs [.dict (some "Hello") (some none)]),
          none, none, true⟩) true "out" "notanid!!").networkCalls = 1
    ∧ (processReference
        (fun _ => .ok ⟨some (.segs [.dict (some "Hello") (some none)]),
          none, none, true⟩) true "out" "notanid!!").saved ≠ none := by
  refine ⟨by decide, by decide, by decide⟩

/-- C1 (amended): extraction is no gate: `main` hands the raw reference to
`fetch_transcript` unconditionally, so every processed reference performs
at least one network attempt whatever `extract_video_id` returns; and when
extraction fails but retrieval succeeds with a truthy (non-empty) parsed
body and the write does not raise, a file is still produced — extraction
failure only selects the `unknown` id placeholder used in the document
and the filename fallback. -/
theorem processReference_network_unconditional (responses rest : Nat → Resp)
    (writeOk : Bool) (dir url u2 : String) (d : TranscriptData)
    (h : extract_video_id u2 = none) (ht : d.truthy = true) :
    1 ≤ (processReference responses writeOk dir url).networkCalls
    ∧ (processReference (fun i => if i = 0 then .ok d else rest i) true dir
        u2).saved.isSome = true
    ∧ (extract_video_id u2).getD "unknown" = "unknown" := by
  refine ⟨?_, ?_, by rw [h]; rfl⟩
  · rw [processReference_calls]
    show 1 ≤ (fetchGo responses url 3 0 3).2
    cases hr : responses 0 with
    | ok d => simp [fetchGo, hr]
    | rateLimited ra =>
      cases ra with
      | none => simp [fetchGo, hr]
      | some s => cases hp : pyInt s with
        | none => simp [fetchGo, hr, hp]
        | some k => simp [fetchGo, hr, hp]
    | err st body => simp [fetchGo, hr]
    | exc msg =>
      by_cases hlt : (0 : Nat) < 3 - 1 <;> simp [fetchGo, hr, hlt]
  · have hf : fetch_transcript (fun i => if i = 0 then .ok d else rest i)
        u2 3 = (.success d, 1) := by
      simp [fetch_transcript, fetchGo]
    simp [processReference, hf, ht, save_transcript]

/-- C1 witness: reference "notanid!!" (extraction fails), first response a
200 with a truthy one-segment body. -/
theorem processReference_network_unconditional_witness :
    extract_video_id "notanid!!" = none
    ∧ (⟨some (.segs [.dict (some "Hello") (some none)]), none, none,
        true⟩ : TranscriptData).truthy = true
    ∧ (1 ≤ (processReference (fun _ => .exc "boom") false "out"
          "u").networkCalls
        ∧ (processReference
            (fun i => if i = 0 then
              .ok ⟨some (.segs [.dict (some "Hello") (some none)]), none,
                none, true⟩
              else .exc "boom")
            true "out" "notanid!!").saved.isSome = true
        ∧ (extract_video_id "notanid!!").getD "unknown" = "unknown") :=
  ⟨by decide, by decide,
   processReference_network_unconditional (fun _ => .exc "boom")
     (fun _ => .exc "boom") false "out" "u" "notanid!!"
     ⟨some (.segs [.dict (some "Hello") (some none)]), none, none, true⟩
     (by decide) (by decide)⟩

/-- C5 counterexample: for a 400 response whose body parses as JSON but
has no `detail` field and whose raw text is non-empty, the claim's message
fallback ("detail when present, else the raw body text, else a
placeholder") predicts "Bad Request: raw body", but the code uses the
generic placeholder whenever the body parses as JSON: the raw body text is
consulted only when JSON parsing fails. -/
theorem handle_error_json_without_detail_counterexample :
    _handle_error 400 ⟨some none, "raw body"⟩ "u"
      = "Bad Request: Unknown error"
    ∧ _handle_error 400 ⟨some none, "raw body"⟩ "u"
        ≠ "Bad Request: raw body" := by
  refine ⟨by decide, by decide⟩

/-- C5 (amended): a response with any status other than 200 and 429 makes
`fetch_transcript` return a failure outcome immediately after that single
attempt (no retry), with the message of the fixed status mapping
(400, 401, 402, 404, 422, 500, else the generic `Error {status}` form);
the `error_msg` fragment is the body's `detail` field when the body parses
as JSON and the field is present, the generic placeholder when the body
parses as JSON without the field, the raw body text when the body is not
JSON and non-empty, and the placeholder otherwise. -/
theorem fetch_error_immediate_classification (rest : Nat → Resp)
    (st : Nat) (body : ErrBody) (dtl url : String) (m : Nat)
    (h200 : st ≠ 200) (h429 : st ≠ 429) :
    fetch_transcript (fun i => if i = 0 then .err st body else rest i) url
        (m + 1)
      = (.failure (some (_handle_error st body url)), 1)
    ∧ (body.json = some (some dtl) → handle_error_msg body = dtl)
    ∧ (body.json = some none → handle_error_msg body = "Unknown error")
    ∧ (body.json = none → body.text ≠ "" →
        handle_error_msg body = body.text)
    ∧ (body.json = none → body.text = "" →
        handle_error_msg body = "Unknown error")
    ∧ _handle_error 400 body url
        = "Bad Request: " ++ handle_error_msg body
    ∧ _handle_error 401 body url
        = "Unauthorized: Invalid or missing API key. Check your TRANSCRIPT_API_KEY."
    ∧ _handle_error 402 body url
        = "Payment Required: " ++ handle_error_msg body
    ∧ _handle_error 404 body url
        = "Not Found: Video not found or transcript unavailable for " ++ url
    ∧ _handle_error 422 body url
        = "Validation Error: Invalid YouTube URL or ID - " ++ url
    ∧ _handle_error 500 body url
        = "Server Error: " ++ handle_error_msg body
    ∧ (st ≠ 400 → st ≠ 401 → st ≠ 402 → st ≠ 404 → st ≠ 422 → st ≠ 500 →
        _handle_error st body url
          = "Error " ++ toString st ++ ": " ++ handle_error_msg body) := by
  refine ⟨by simp [fetch_transcript, fetchGo], ?_, ?_, ?_, ?_,
    by simp [_handle_error], by simp [_handle_error], by simp [_handle_error],
    by simp [_handle_error], by simp [_handle_error], by simp [_handle_error],
    ?_⟩
  · intro hj; simp [handle_error_msg, hj]
  · intro hj; simp [handle_error_msg, hj]
  · intro hj ht; simp [handle_error_msg, hj, ht]
  · intro hj ht; simp [handle_error_msg, hj, ht]
  · intro h400 h401 h402 h404 h422 h500
    simp [_handle_error, h400, h401, h402, h404, h422, h429, h500]

/-- C5 witness: status 404 with a non-JSON body. -/
theorem fetch_error_immediate_classification_witness :
    fetch_transcript
        (fun i => if i = 0 then .err 404 ⟨none, "x"⟩ else .exc "boom") "u" 1
      = (.failure (some (_handle_error 404 ⟨none, "x"⟩ "u")), 1)
    ∧ ((⟨none, "x"⟩ : ErrBody).json = some (some "d") →
        handle_error_msg ⟨none, "x"⟩ = "d")
    ∧ ((⟨none, "x"⟩ : ErrBody).json = some none →
        handle_error_msg ⟨none, "x"⟩ = "Unknown error")
    ∧ ((⟨none, "x"⟩ : ErrBody).json = none →
        (⟨none, "x"⟩ : ErrBody).text ≠ "" →
        handle_error_msg ⟨none, "x"⟩ = (⟨none, "x"⟩ : ErrBody).text)
    ∧ ((⟨none, "x"⟩ : ErrBody).json = none →
        (⟨none, "x"⟩ : ErrBody).text = "" →
        handle_error_msg ⟨none, "x"⟩ = "Unknown error")
    ∧ _handle_error 400 ⟨none, "x"⟩ "u"
        = "Bad Request: " ++ handle_error_msg ⟨none, "x"⟩
    ∧ _handle_error 401 ⟨none, "x"⟩ "u"
        = "Unauthorized: Invalid or missing API key. Check your TRANSCRIPT_API_KEY."
    ∧ _handle_error 402 ⟨none, "x"⟩ "u"
        = "Payment Required: " ++ handle_error_msg ⟨none, "x"⟩
    ∧ _handle_error 404 ⟨none, "x"⟩ "u"
        = "Not Found: Video not found or transcript unavailable for " ++ "u"
    ∧ _handle_error 422 ⟨none, "x"⟩ "u"
        = "Validation Error: Invalid YouTube URL or ID - " ++ "u"
    ∧ _handle_error 500 ⟨none, "x"⟩ "u"
        = "Server Error: " ++ handle_error_msg ⟨none, "x"⟩
    ∧ ((404 : Nat) ≠ 400 → (404 : Nat) ≠ 401 → (404 : Nat) ≠ 402 →
        (404 : Nat) ≠ 404 → (404 : Nat) ≠ 422 → (404 : Nat) ≠ 500 →
        _handle_error 404 ⟨none, "x"⟩ "u"
          = "Error " ++ toString (404 : Nat) ++ ": "
              ++ handle_error_msg ⟨none, "x"⟩) :=
  fetch_error_immediate_classification (fun _ => .exc "boom") 404
    ⟨none, "x"⟩ "d" "u" 0 (by decide) (by decide)

/-- C6: for every valid 11-character canonical id, each supported wrapper
(watch URL with `v=` query parameter, path-segment URL, `youtu.be`
short link) roundtrips through the extractor:
`extract_video_id (wrap id) = some id`. -/
theorem extract_video_id_roundtrip (id : String)
    (h1 : id.length = 11) (h2 : id.data.all isIdChar = true) :
    extract_video_id (wrapWatchURL id) = some id
    ∧ extract_video_id (wrapPathURL id) = some id
    ∧ extract_video_id (wrapShortURL id) = some id := by
  obtain ⟨l⟩ := id
  have hl : l.length = 11 := h1
  obtain ⟨c0, c1, c2, c3, c4, c5, c6, c7, c8, c9, c10, rfl⟩ :=
    list_eq_of_length_eleven l hl
  have ha : ([c0, c1, c2, c3, c4, c5, c6, c7, c8, c9, c10].all isIdChar)
      = true := h2
  simp only [List.all_cons, List.all_nil, Bool.and_eq_true, Bool.and_true] at ha
  obtain ⟨hc0, hc1, hc2, hc3, hc4, hc5, hc6, hc7, hc8, hc9, hc10⟩ := ha
  refine ⟨?_, ?_, ?_⟩
  · have hs : wrapWatchURL (String.mk [c0, c1, c2, c3, c4, c5, c6, c7, c8,
        c9, c10]) = String.mk (['h','t','t','p','s',':','/','/','w','w','w',
        '.','y','o','u','t','u','b','e','.','c','o','m','/','w','a','t','c',
        'h','?','v','='] ++ [c0, c1, c2, c3, c4, c5, c6, c7, c8, c9, c10]) :=
      rfl
    have hm : matches_id_fullmatch (String.mk ['h','t','t','p','s',':','/',
        '/','w','w','w','.','y','o','u','t','u','b','e','.','c','o','m','/',
        'w','a','t','c','h','?','v','=',
        c0,c1,c2,c3,c4,c5,c6,c7,c8,c9,c10]) = false := rfl
    rw [hs]
    simp +decide [extract_video_id, hm, scanPat1, tryPat1, takeClass11,
      hc0, hc1, hc2, hc3, hc4, hc5, hc6, hc7, hc8, hc9, hc10]
  · have hs : wrapPathURL (String.mk [c0, c1, c2, c3, c4, c5, c6, c7, c8,
        c9, c10]) = String.mk (['h','t','t','p','s',':','/','/','w','w','w',
        '.','y','o','u','t','u','b','e','.','c','o','m','/','e','m','b','e',
        'd','/'] ++ [c0, c1, c2, c3, c4, c5, c6, c7, c8, c9, c10]) := rfl
    have hm : matches_id_fullmatch (String.mk ['h','t','t','p','s',':','/',
        '/','w','w','w','.','y','o','u','t','u','b','e','.','c','o','m','/',
        'e','m','b','e','d','/',
        c0,c1,c2,c3,c4,c5,c6,c7,c8,c9,c10]) = false := rfl
    rw [hs]
    simp +decide [extract_video_id, hm, scanPat1, tryPat1, takeClass11,
      hc0, hc1, hc2, hc3, hc4, hc5, hc6, hc7, hc8, hc9, hc10]
  · have hs : wrapShortURL (String.mk [c0, c1, c2, c3, c4, c5, c6, c7, c8,
        c9, c10]) = String.mk (['h','t','t','p','s',':','/','/','y','o','u',
        't','u','.','b','e','/'] ++ [c0, c1, c2, c3, c4, c5, c6, c7, c8, c9,
        c10]) := rfl
    have hm : matches_id_fullmatch (String.mk ['h','t','t','p','s',':','/',
        '/','y','o','u','t','u','.','b','e','/',
        c0,c1,c2,c3,c4,c5,c6,c7,c8,c9,c10]) = false := rfl
    rw [hs]
    simp +decide [extract_video_id, hm, scanPat1, tryPat1, takeClass11,
      hc0, hc1, hc2, hc3, hc4, hc5, hc6, hc7, hc8, hc9, hc10]

/-- C6 witness at the concrete canonical id "dQw4w9WgXcQ". -/
theorem extract_video_id_roundtrip_witness :
    ("dQw4w9WgXcQ" : String).length = 11
    ∧ ("dQw4w9WgXcQ" : String).data.all isIdChar = true
    ∧ (extract_video_id (wrapWatchURL "dQw4w9WgXcQ") = some "dQw4w9WgXcQ"
        ∧ extract_video_id (wrapPathURL "dQw4w9WgXcQ") = some "dQw4w9WgXcQ"
        ∧ extract_video_id (wrapShortURL "dQw4w9WgXcQ")
            = some "dQw4w9WgXcQ") :=
  ⟨by decide, by decide,
   extract_video_id_roundtrip "dQw4w9WgXcQ" (by decide) (by decide)⟩

/-- C8 witness: the cleaned title "a/b:c" is within the cap, and its
character 'a' is not reserved. -/
theorem clean_filename_bounds_witness :
    (_clean_filename "a/b:c").length ≤ 200
    ∧ ('a' ∈ (_clean_filename "a/b:c").data ∧ isReserved 'a' = false) :=
  ⟨(clean_filename_bounds "a/b:c").1,
   by decide, (clean_filename_bounds "a/b:c").2 'a' (by decide)⟩
